import Mathlib

/-!
Shallow embedding of `src/config.rs` of the fastly-config repository:
the Origin record, the static origin catalog constants, the
content-path router `get_origin_for_content_path`, the POP table
`POP_ORIGIN`, and the region-extraction regex `REGION_REGEX`,
together with the spec's `Region` / `Category` vocabulary.
-/

namespace FastlyConfig

/-- Embeds the Rust struct `Origin` (config.rs lines 8-16). -/
structure Origin where
  backend_name : String
  bucket_name : String
  bucket_host : String
deriving DecidableEq, Repr

/-- config.rs line 6: `pub(crate) const DEFAULT_POP: &str = "SJC";` -/
def DEFAULT_POP : String := "SJC"

-- Images Cache Buckets (config.rs lines 22-32)

def EU_IMAGES_ORIGIN : Origin :=
  { backend_name := "eu_origin"
    bucket_name := "images-shobl-cache"
    bucket_host := "s3.eu-central-003.backblazeb2.com" }

def US_IMAGES_ORIGIN : Origin :=
  { backend_name := "us_origin"
    bucket_name := "images-shobl-cache-us"
    bucket_host := "s3.us-west-004.backblazeb2.com" }

-- Games Buckets (config.rs lines 35-45)

def EU_GAMES_ORIGIN : Origin :=
  { backend_name := "eu_origin"
    bucket_name := "games-shobl"
    bucket_host := "s3.eu-central-003.backblazeb2.com" }

def US_GAMES_ORIGIN : Origin :=
  { backend_name := "us_origin"
    bucket_name := "games-shobl-us"
    bucket_host := "s3.us-west-004.backblazeb2.com" }

-- Music Buckets (config.rs lines 48-58)

def EU_MUSIC_ORIGIN : Origin :=
  { backend_name := "eu_origin"
    bucket_name := "music-shobl"
    bucket_host := "s3.eu-central-003.backblazeb2.com" }

def US_MUSIC_ORIGIN : Origin :=
  { backend_name := "us_origin"
    bucket_name := "music-shobl-us"
    bucket_host := "s3.us-west-004.backblazeb2.com" }

-- Comics Buckets (config.rs lines 61-71)

def EU_COMICS_ORIGIN : Origin :=
  { backend_name := "eu_origin"
    bucket_name := "comics-shobl"
    bucket_host := "s3.eu-central-003.backblazeb2.com" }

def US_COMICS_ORIGIN : Origin :=
  { backend_name := "us_origin"
    bucket_name := "comics-shobl-us"
    bucket_host := "s3.us-west-004.backblazeb2.com" }

-- Videos Buckets (config.rs lines 74-84)

def EU_VIDEOS_ORIGIN : Origin :=
  { backend_name := "eu_origin"
    bucket_name := "videos-shobl"
    bucket_host := "s3.eu-central-003.backblazeb2.com" }

def US_VIDEOS_ORIGIN : Origin :=
  { backend_name := "us_origin"
    bucket_name := "videos-shobl-us"
    bucket_host := "s3.us-west-004.backblazeb2.com" }

-- Art Buckets (config.rs lines 87-97)

def EU_ART_ORIGIN : Origin :=
  { backend_name := "eu_origin"
    bucket_name := "art-shobl"
    bucket_host := "s3.eu-central-003.backblazeb2.com" }

def US_ART_ORIGIN : Origin :=
  { backend_name := "us_origin"
    bucket_name := "art-shobl-us"
    bucket_host := "s3.us-west-004.backblazeb2.com" }

-- Public SEO Images Buckets (config.rs lines 100-110)

def EU_PUBLIC_IMAGES_ORIGIN : Origin :=
  { backend_name := "eu_origin"
    bucket_name := "images-public-seo"
    bucket_host := "s3.eu-central-003.backblazeb2.com" }

def US_PUBLIC_IMAGES_ORIGIN : Origin :=
  { backend_name := "us_origin"
    bucket_name := "images-public-seo-us"
    bucket_host := "s3.us-west-004.backblazeb2.com" }

/-- config.rs line 113: `pub(crate) const EU_ORIGIN: Origin = EU_IMAGES_ORIGIN;` -/
def EU_ORIGIN : Origin := EU_IMAGES_ORIGIN

/-- config.rs line 114: `pub(crate) const US_ORIGIN: Origin = US_IMAGES_ORIGIN;` -/
def US_ORIGIN : Origin := US_IMAGES_ORIGIN

/-- Rust's `str::starts_with(pat)` on the paths and prefixes used here
(all ASCII, so byte-wise prefix equals character-wise prefix). -/
def strStartsWith (s pat : String) : Bool :=
  pat.data.isPrefixOf s.data

/-- Embeds `get_origin_for_content_path` (config.rs lines 118-136):
ordered first-match prefix routing, region chosen by comparing the raw
region string against the literal "eu". -/
def get_origin_for_content_path (path region : String) : Origin :=
  if strStartsWith path "games/" then
    if region == "eu" then EU_GAMES_ORIGIN else US_GAMES_ORIGIN
  else if strStartsWith path "art/" then
    if region == "eu" then EU_ART_ORIGIN else US_ART_ORIGIN
  else if strStartsWith path "music/" || strStartsWith path "audio/" then
    if region == "eu" then EU_MUSIC_ORIGIN else US_MUSIC_ORIGIN
  else if strStartsWith path "videos/" || strStartsWith path "video/" then
    if region == "eu" then EU_VIDEOS_ORIGIN else US_VIDEOS_ORIGIN
  else if strStartsWith path "comics/" then
    if region == "eu" then EU_COMICS_ORIGIN else US_COMICS_ORIGIN
  else if strStartsWith path "images-public/" then
    if region == "eu" then EU_PUBLIC_IMAGES_ORIGIN else US_PUBLIC_IMAGES_ORIGIN
  else
    if region == "eu" then EU_IMAGES_ORIGIN else US_IMAGES_ORIGIN

/-- The spec's `Region` enumeration {EU, US} (spec section 3). -/
inductive Region where
  | EU
  | US
deriving DecidableEq, Repr

/-- Modelled from the spec: the normalization of a `Region` enumeration
value to the lowercase region string that `get_origin_for_content_path`
compares against; the enumeration itself is absent from src/, whose
router takes a raw string and tests it against the literal "eu". -/
def regionStr : Region → String
  | .EU => "eu"
  | .US => "us"

/-- The spec's `Category` enumeration (spec section 3). -/
inductive Category where
  | Images
  | Games
  | Music
  | Video
  | Comics
  | Art
  | PublicImages
deriving DecidableEq, Repr

/-- The path-to-category classification performed by the if-chain of
`get_origin_for_content_path` (config.rs lines 119-133), with the same
prefixes in the same order and `Images` as the default. -/
def classify (path : String) : Category :=
  if strStartsWith path "games/" then .Games
  else if strStartsWith path "art/" then .Art
  else if strStartsWith path "music/" || strStartsWith path "audio/" then .Music
  else if strStartsWith path "videos/" || strStartsWith path "video/" then .Video
  else if strStartsWith path "comics/" then .Comics
  else if strStartsWith path "images-public/" then .PublicImages
  else .Images

/-- The (Category × Region) → Origin catalog assembled from the
per-category constants of config.rs lines 22-110 (the spec's `lookup`;
src/ keeps the same data as fourteen constants selected inside
`get_origin_for_content_path`). -/
def lookup : Category → Region → Origin
  | .Images, .EU => EU_IMAGES_ORIGIN
  | .Images, .US => US_IMAGES_ORIGIN
  | .Games, .EU => EU_GAMES_ORIGIN
  | .Games, .US => US_GAMES_ORIGIN
  | .Music, .EU => EU_MUSIC_ORIGIN
  | .Music, .US => US_MUSIC_ORIGIN
  | .Video, .EU => EU_VIDEOS_ORIGIN
  | .Video, .US => US_VIDEOS_ORIGIN
  | .Comics, .EU => EU_COMICS_ORIGIN
  | .Comics, .US => US_COMICS_ORIGIN
  | .Art, .EU => EU_ART_ORIGIN
  | .Art, .US => US_ART_ORIGIN
  | .PublicImages, .EU => EU_PUBLIC_IMAGES_ORIGIN
  | .PublicImages, .US => US_PUBLIC_IMAGES_ORIGIN

/-- Embeds the `POP_ORIGIN` static map (config.rs lines 147-249) as the
association list of its entries, in source order. -/
def POP_ORIGIN : List (String × Origin) :=
  [("AMS", EU_ORIGIN),
   ("WDC", US_ORIGIN),
   ("IAD", US_ORIGIN),
   ("BWI", US_ORIGIN),
   ("DCA", US_ORIGIN),
   ("ATL", US_ORIGIN),
   ("FTY", US_ORIGIN),
   ("PDK", US_ORIGIN),
   ("AKL", US_ORIGIN),
   ("BOG", US_ORIGIN),
   ("BOS", US_ORIGIN),
   ("BNE", US_ORIGIN),
   ("EZE", US_ORIGIN),
   ("CPT", EU_ORIGIN),
   ("MAA", US_ORIGIN),
   ("ORD", US_ORIGIN),
   ("LOT", US_ORIGIN),
   ("CHI", US_ORIGIN),
   ("MDW", US_ORIGIN),
   ("PWK", US_ORIGIN),
   ("CMH", US_ORIGIN),
   ("LCK", US_ORIGIN),
   ("CPH", EU_ORIGIN),
   ("CWB", US_ORIGIN),
   ("DFW", US_ORIGIN),
   ("DAL", US_ORIGIN),
   ("DEL", US_ORIGIN),
   ("DEN", US_ORIGIN),
   ("DTW", US_ORIGIN),
   ("DXB", US_ORIGIN),
   ("DUB", EU_ORIGIN),
   ("FOR", US_ORIGIN),
   ("FRA", EU_ORIGIN),
   ("HHN", EU_ORIGIN),
   ("FJR", US_ORIGIN),
   ("GNV", US_ORIGIN),
   ("ACC", EU_ORIGIN),
   ("HEL", EU_ORIGIN),
   ("HKG", US_ORIGIN),
   ("HNL", US_ORIGIN),
   ("IAH", US_ORIGIN),
   ("HYD", US_ORIGIN),
   ("JAX", US_ORIGIN),
   ("JNB", EU_ORIGIN),
   ("MCI", US_ORIGIN),
   ("CCU", US_ORIGIN),
   ("KUL", US_ORIGIN),
   ("LIM", US_ORIGIN),
   ("LCY", EU_ORIGIN),
   ("LHR", EU_ORIGIN),
   ("LON", EU_ORIGIN),
   ("LGB", US_ORIGIN),
   ("SMO", US_ORIGIN),
   ("BUR", US_ORIGIN),
   ("MAD", EU_ORIGIN),
   ("MAN", EU_ORIGIN),
   ("MNL", US_ORIGIN),
   ("MRS", EU_ORIGIN),
   ("MEL", US_ORIGIN),
   ("MIA", US_ORIGIN),
   ("MXP", EU_ORIGIN),
   ("LIN", EU_ORIGIN),
   ("MSP", US_ORIGIN),
   ("STP", US_ORIGIN),
   ("YUL", US_ORIGIN),
   ("BOM", US_ORIGIN),
   ("MUC", EU_ORIGIN),
   ("LGA", US_ORIGIN),
   ("EWR", US_ORIGIN),
   ("ITM", US_ORIGIN),
   ("OSL", EU_ORIGIN),
   ("PAO", US_ORIGIN),
   ("CDG", EU_ORIGIN),
   ("PER", US_ORIGIN),
   ("PHX", US_ORIGIN),
   ("PDX", US_ORIGIN),
   ("GIG", US_ORIGIN),
   ("FCO", EU_ORIGIN),
   ("SJC", US_ORIGIN),
   ("SCL", US_ORIGIN),
   ("CGH", US_ORIGIN),
   ("GRU", US_ORIGIN),
   ("SEA", US_ORIGIN),
   ("BFI", US_ORIGIN),
   ("ICN", US_ORIGIN),
   ("QPG", US_ORIGIN),
   ("SOF", EU_ORIGIN),
   ("STL", US_ORIGIN),
   ("BMA", EU_ORIGIN),
   ("SYD", US_ORIGIN),
   ("TYO", US_ORIGIN),
   ("HND", US_ORIGIN),
   ("NRT", US_ORIGIN),
   ("YYZ", US_ORIGIN),
   ("YVR", US_ORIGIN),
   ("VIE", EU_ORIGIN),
   ("WLG", US_ORIGIN)]

/-- The region a stored Origin stands for, read off its backend name
(the table only ever stores `EU_ORIGIN` or `US_ORIGIN`, whose backend
names are "eu_origin" and "us_origin"). -/
def originRegion (o : Origin) : Region :=
  if o.backend_name = "eu_origin" then .EU else .US

/-- Modelled from the spec: `region_for_pop` (spec section 4.2 Contract A)
is absent from src/, which holds only the `POP_ORIGIN` table and
`DEFAULT_POP`; a POP present in the table resolves to that entry's
region, and an unknown POP falls back to `DEFAULT_POP`'s entry ("SJC",
i.e. US, the spec's assumed default). -/
def region_for_pop (pop : String) : Region :=
  match POP_ORIGIN.find? (fun e => e.1 == pop) with
  | some e => originRegion e.2
  | none =>
    match POP_ORIGIN.find? (fun e => e.1 == DEFAULT_POP) with
    | some e => originRegion e.2
    | none => .US

/-- A character admitted by the `[[:alnum:]\-]` class of `REGION_REGEX`
(config.rs line 140): an ASCII letter, digit, or hyphen. -/
def isRegionChar (c : Char) : Bool :=
  c.isAlphanum || c == '-'

/-- Modelled from the spec: `region_from_bucket_host` (spec section 4.2
Contract B) is absent from src/, which holds only `REGION_REGEX`
(config.rs line 140, anchored regex s3\.([[:alnum:]\-]+)\.backblazeb2\.com);
the host matches when it is "s3." ++ token ++ ".backblazeb2.com" with a
nonempty token of letters, digits and hyphens, and the token is returned. -/
def region_from_bucket_host (host : String) : Option String :=
  if "s3.".data.isPrefixOf host.data = true
      ∧ ".backblazeb2.com".data.isSuffixOf host.data = true
      ∧ "s3.".data.length + ".backblazeb2.com".data.length < host.data.length then
    if ((host.data.drop "s3.".data.length).take
          (host.data.length - "s3.".data.length - ".backblazeb2.com".data.length)).all
        isRegionChar = true then
      some (String.mk ((host.data.drop "s3.".data.length).take
        (host.data.length - "s3.".data.length - ".backblazeb2.com".data.length)))
    else none
  else none

/-- The matching relation denoted by `REGION_REGEX`: host is exactly
"s3." ++ tok ++ ".backblazeb2.com" for a nonempty token drawn from the
`[[:alnum:]\-]` class. -/
def hostMatchesRegionRegex (host : String) (tok : List Char) : Prop :=
  tok ≠ [] ∧ tok.all isRegionChar = true ∧
    host.data = "s3.".data ++ tok ++ ".backblazeb2.com".data

/-- The spec's ordered prefix-to-category rule list (spec section 4.1),
in the order the if-chain of config.rs lines 119-133 tests prefixes. -/
def categoryRules : List (String × Category) :=
  [("games/", .Games), ("art/", .Art), ("music/", .Music), ("audio/", .Music),
   ("videos/", .Video), ("video/", .Video), ("comics/", .Comics),
   ("images-public/", .PublicImages)]

/-- Ordered, first-match prefix classification over a rule list with
Images as the default, following the spec's words for the classifier. -/
def firstMatch (p : String) : List (String × Category) → Category
  | [] => .Images
  | rule :: rest => if strStartsWith p rule.1 then rule.2 else firstMatch p rest

/-- The router factors through classification and the catalog: resolving
a path with the normalized string of region `r` is the catalog entry at
(classify path, r). -/
theorem resolve_eq_lookup (p : String) (r : Region) :
    get_origin_for_content_path p (regionStr r) = lookup (classify p) r := by
  cases r <;>
    simp only [get_origin_for_content_path, classify, regionStr] <;>
    repeat' split <;>
    simp_all [lookup]

/-- Every EU column of the catalog carries the "eu_origin" backend. -/
theorem lookup_eu_backend (c : Category) :
    (lookup c Region.EU).backend_name = "eu_origin" := by
  cases c <;> rfl

/-- Every US column of the catalog carries the "us_origin" backend. -/
theorem lookup_us_backend (c : Category) :
    (lookup c Region.US).backend_name = "us_origin" := by
  cases c <;> rfl

/-- C1: for every path `p` and every region `r` of the {EU, US}
enumeration, `get_origin_for_content_path` resolves `p` under `r`'s
region string to an Origin whose backend name is "eu_origin" iff
`r = EU`, and under US the backend name is "us_origin". -/
theorem backend_matches_region (p : String) (r : Region) :
    ((get_origin_for_content_path p (regionStr r)).backend_name = "eu_origin"
      ↔ r = Region.EU)
    ∧ (get_origin_for_content_path p (regionStr Region.US)).backend_name
        = "us_origin" := by
  refine ⟨?_, ?_⟩
  · rw [resolve_eq_lookup]
    cases r
    · simp [lookup_eu_backend]
    · simp only [lookup_us_backend]
      constructor
      · intro h; exact absurd h (by decide)
      · intro h; exact absurd h (by decide)
  · rw [resolve_eq_lookup, lookup_us_backend]

/-- C5: prefix matching is case-sensitive and exact: "games/foo.png"
classifies as Games, "GAMES/foo.png" as Images, and every path that
begins with "gamesX/" classifies as Images and resolves, for every
region, to that region's Images origin. -/
theorem classify_case_sensitive :
    classify "games/foo.png" = Category.Games
    ∧ classify "GAMES/foo.png" = Category.Images
    ∧ ∀ (s : String) (r : Region),
        classify ("gamesX/" ++ s) = Category.Images
        ∧ get_origin_for_content_path ("gamesX/" ++ s) (regionStr r)
            = lookup Category.Images r := by
  refine ⟨by decide, by decide, fun s r => ⟨rfl, ?_⟩⟩
  rw [resolve_eq_lookup]
  have h : classify ("gamesX/" ++ s) = Category.Images := rfl
  rw [h]

/-- C6: the legacy default origins equal the Images-category origins by
value, so the origin chosen when no category applies is exactly
lookup(Images, r). -/
theorem default_origin_is_images (p : String) (r : Region) :
    EU_ORIGIN = EU_IMAGES_ORIGIN ∧ US_ORIGIN = US_IMAGES_ORIGIN
    ∧ lookup Category.Images Region.EU = EU_ORIGIN
    ∧ lookup Category.Images Region.US = US_ORIGIN
    ∧ (classify p = Category.Images →
        get_origin_for_content_path p (regionStr r) = lookup Category.Images r) := by
  refine ⟨rfl, rfl, rfl, rfl, fun h => ?_⟩
  rw [resolve_eq_lookup, h]

/-- Witness for C6 at the concrete uncategorized path "misc/file.bin"
and region EU. -/
theorem default_origin_is_images_witness :
    get_origin_for_content_path "misc/file.bin" (regionStr Region.EU)
      = lookup Category.Images Region.EU :=
  (default_origin_is_images "misc/file.bin" Region.EU).2.2.2.2 (by decide)

/-- C8: the catalog is total over all 7 categories × 2 regions and
well-formed: all three fields of every entry are non-empty and the
backend name is exactly "eu_origin" or "us_origin". -/
theorem catalog_complete_well_formed (c : Category) (r : Region) :
    (lookup c r).backend_name ≠ "" ∧ (lookup c r).bucket_name ≠ ""
    ∧ (lookup c r).bucket_host ≠ ""
    ∧ ((lookup c r).backend_name = "eu_origin"
        ∨ (lookup c r).backend_name = "us_origin") := by
  cases c <;> cases r <;>
    exact ⟨by decide, by decide, by decide, by decide⟩

/-- C9: for every path and every region string other than the lowercase
literal "eu" (for example "EU", "Eu", "us", or ""), the router returns
the US origin of the path's category: the region argument is compared
against the single literal "eu". -/
theorem non_eu_string_resolves_us (p r : String) (h : r ≠ "eu") :
    get_origin_for_content_path p r = lookup (classify p) Region.US
    ∧ (get_origin_for_content_path p r).backend_name = "us_origin" := by
  have hb : (r == "eu") = false := by
    rw [beq_eq_false_iff_ne]
    exact h
  have h1 : get_origin_for_content_path p r = lookup (classify p) Region.US := by
    simp only [get_origin_for_content_path, classify, hb]
    repeat' split <;> simp_all [lookup]
  exact ⟨h1, by rw [h1, lookup_us_backend]⟩

/-- Witness for C9 at the concrete path "games/a" and the non-lowercase
region string "EU". -/
theorem non_eu_string_resolves_us_witness :
    get_origin_for_content_path "games/a" "EU" = lookup (classify "games/a") Region.US
    ∧ (get_origin_for_content_path "games/a" "EU").backend_name = "us_origin" :=
  non_eu_string_resolves_us "games/a" "EU" (by decide)

/-- C2: the classifier is exactly ordered first-match testing over the
fixed prefix rule list; a path matching no rule (the empty path
included) classifies as Images and resolves, for every region, to that
region's Images origin; a path starting with "images-public/" resolves
to that region's PublicImages origin. -/
theorem classify_ordered_first_match (p : String) (r : Region) :
    classify p = firstMatch p categoryRules
    ∧ (firstMatch p categoryRules = Category.Images ↔
        ∀ rule ∈ categoryRules, strStartsWith p rule.1 = false)
    ∧ ((∀ rule ∈ categoryRules, strStartsWith p rule.1 = false) →
        get_origin_for_content_path p (regionStr r) = lookup Category.Images r)
    ∧ (strStartsWith p "images-public/" = true →
        get_origin_for_content_path p (regionStr r) = lookup Category.PublicImages r)
    ∧ classify "" = Category.Images := by
  have h1 : classify p = firstMatch p categoryRules := by
    simp only [classify, categoryRules, firstMatch]
    repeat' split <;> try rfl
    all_goals simp_all
  have h2 : firstMatch p categoryRules = Category.Images ↔
      ∀ rule ∈ categoryRules, strStartsWith p rule.1 = false := by
    simp only [categoryRules, firstMatch, List.mem_cons, List.not_mem_nil]
    repeat' split <;> try rfl
    all_goals simp_all
  refine ⟨h1, h2, fun hall => ?_, fun hip => ?_, by decide⟩
  · rw [resolve_eq_lookup, h1, h2.mpr hall]
  · have hnot : ∀ q : String,
        q.data.isPrefixOf "images-public/".data = false →
        "images-public/".data.isPrefixOf q.data = false →
        strStartsWith p q = false := by
      intro q hq1 hq2
      cases hqb : strStartsWith p q
      · rfl
      · exfalso
        simp only [strStartsWith] at hqb hip
        have hqp := List.isPrefixOf_iff_prefix.mp hqb
        have hip2 := List.isPrefixOf_iff_prefix.mp hip
        rcases List.prefix_or_prefix_of_prefix hqp hip2 with h | h
        · rw [← List.isPrefixOf_iff_prefix] at h
          rw [h] at hq1
          exact Bool.noConfusion hq1
        · rw [← List.isPrefixOf_iff_prefix] at h
          rw [h] at hq2
          exact Bool.noConfusion hq2
    have hg : strStartsWith p "games/" = false := hnot _ (by decide) (by decide)
    have ha : strStartsWith p "art/" = false := hnot _ (by decide) (by decide)
    have hm : strStartsWith p "music/" = false := hnot _ (by decide) (by decide)
    have hau : strStartsWith p "audio/" = false := hnot _ (by decide) (by decide)
    have hv : strStartsWith p "videos/" = false := hnot _ (by decide) (by decide)
    have hv2 : strStartsWith p "video/" = false := hnot _ (by decide) (by decide)
    have hcm : strStartsWith p "comics/" = false := hnot _ (by decide) (by decide)
    have hcl : classify p = Category.PublicImages := by
      simp [classify, hg, ha, hm, hau, hv, hv2, hcm, hip]
    rw [resolve_eq_lookup, hcl]

/-- Witness for C2 at the unmatched path "random/x" (region US) and the
public-images path "images-public/x" (region EU). -/
theorem classify_ordered_first_match_witness :
    get_origin_for_content_path "random/x" (regionStr Region.US)
      = lookup Category.Images Region.US
    ∧ get_origin_for_content_path "images-public/x" (regionStr Region.EU)
        = lookup Category.PublicImages Region.EU :=
  ⟨(classify_ordered_first_match "random/x" Region.US).2.2.1 (by decide),
   (classify_ordered_first_match "images-public/x" Region.EU).2.2.2.1 (by decide)⟩

set_option maxRecDepth 8000 in
/-- C3: `region_for_pop` is total: every POP code in the table resolves
to that entry's region (in particular "SJC" to US and "AMS" to EU), and
a POP code absent from the table (such as "ZZZ") resolves to the default
region US rather than failing. -/
theorem region_for_pop_total :
    region_for_pop "SJC" = Region.US
    ∧ region_for_pop "AMS" = Region.EU
    ∧ region_for_pop "ZZZ" = Region.US
    ∧ ∀ e ∈ POP_ORIGIN, region_for_pop e.1 = originRegion e.2 := by
  refine ⟨by decide, by decide, by decide, by decide⟩

/-- Witness for C3 at the concrete table entry ("FRA", EU_ORIGIN). -/
theorem region_for_pop_total_witness :
    region_for_pop "FRA" = originRegion EU_ORIGIN :=
  region_for_pop_total.2.2.2 ("FRA", EU_ORIGIN) (by decide)

set_option maxRecDepth 8000 in
/-- C4: the legacy POP table is consistent with the category-aware
catalog: every stored Origin equals lookup(Images, region_for_pop pop)
and is exactly EU_IMAGES_ORIGIN or exactly US_IMAGES_ORIGIN. -/
theorem pop_origin_consistent :
    ∀ e ∈ POP_ORIGIN,
      e.2 = lookup Category.Images (region_for_pop e.1)
      ∧ (e.2 = EU_IMAGES_ORIGIN ∨ e.2 = US_IMAGES_ORIGIN) := by
  decide

/-- Witness for C4 at the concrete table entry ("AMS", EU_ORIGIN). -/
theorem pop_origin_consistent_witness :
    EU_ORIGIN = lookup Category.Images (region_for_pop "AMS")
    ∧ (EU_ORIGIN = EU_IMAGES_ORIGIN ∨ EU_ORIGIN = US_IMAGES_ORIGIN) :=
  pop_origin_consistent ("AMS", EU_ORIGIN) (by decide)

/-- A list that strictly contains a given prefix and suffix decomposes
as prefix ++ middle ++ suffix, where the middle is the take/drop window
between them, and the middle has the expected length. -/
theorem take_drop_mid (pre suf cs : List Char)
    (hpre : pre.isPrefixOf cs = true) (hsuf : suf.isSuffixOf cs = true)
    (hlen : pre.length + suf.length < cs.length) :
    cs = pre ++ (((cs.drop pre.length).take (cs.length - pre.length - suf.length)) ++ suf)
    ∧ ((cs.drop pre.length).take (cs.length - pre.length - suf.length)).length
        = cs.length - pre.length - suf.length := by
  obtain ⟨t1, ht1⟩ := List.isPrefixOf_iff_prefix.mp hpre
  obtain ⟨t2, ht2⟩ := List.isSuffixOf_iff_suffix.mp hsuf
  have hl1 : pre.length + t1.length = cs.length := by
    rw [← ht1, List.length_append]
  have hl2 : t2.length + suf.length = cs.length := by
    rw [← ht2, List.length_append]
  have hdrop : cs.drop pre.length = t1 := by
    rw [← ht1, List.drop_left]
  have hdrop2 : cs.drop t2.length = suf := by
    rw [← ht2, List.drop_left]
  have hkey : pre.length + (t1.length - suf.length) = t2.length := by omega
  have htaildrop : t1.drop (t1.length - suf.length) = suf := by
    have h3 : cs.drop (pre.length + (t1.length - suf.length))
        = t1.drop (t1.length - suf.length) := by
      rw [← ht1]
      simp [List.drop_append]
    rw [hkey, hdrop2] at h3
    exact h3.symm
  have hk : cs.length - pre.length - suf.length = t1.length - suf.length := by omega
  constructor
  · rw [hdrop, hk]
    conv_lhs => rw [← ht1, ← List.take_append_drop (t1.length - suf.length) t1]
    rw [htaildrop]
  · rw [hdrop, hk, List.length_take]
    omega

/-- Soundness of the host-region extraction: whenever it returns a
token, the host really is s3.<token>.backblazeb2.com with a nonempty
token drawn from the regex's character class. -/
theorem region_from_bucket_host_some (host t : String)
    (h : region_from_bucket_host host = some t) :
    hostMatchesRegionRegex host t.data := by
  unfold region_from_bucket_host at h
  by_cases hc : "s3.".data.isPrefixOf host.data = true
      ∧ ".backblazeb2.com".data.isSuffixOf host.data = true
      ∧ "s3.".data.length + ".backblazeb2.com".data.length < host.data.length
  · rw [if_pos hc] at h
    obtain ⟨hp, hs, hlen⟩ := hc
    by_cases hall : ((host.data.drop "s3.".data.length).take
        (host.data.length - "s3.".data.length - ".backblazeb2.com".data.length)).all
        isRegionChar = true
    · rw [if_pos hall] at h
      have ht := Option.some.inj h
      obtain ⟨hdec, hmlen⟩ :=
        take_drop_mid "s3.".data ".backblazeb2.com".data host.data hp hs hlen
      have hdata : t.data = (host.data.drop "s3.".data.length).take
          (host.data.length - "s3.".data.length - ".backblazeb2.com".data.length) := by
        rw [← ht]
      refine ⟨?_, ?_, ?_⟩
      · rw [hdata]
        have hpos : 0 < ((host.data.drop "s3.".data.length).take
            (host.data.length - "s3.".data.length - ".backblazeb2.com".data.length)).length := by
          rw [hmlen]
          omega
        intro hnil
        rw [hnil] at hpos
        simp at hpos
      · rw [hdata]
        exact hall
      · rw [hdata, List.append_assoc]
        exact hdec
    · rw [if_neg hall] at h
      exact absurd h (by simp)
  · rw [if_neg hc] at h
    exact absurd h (by simp)

/-- Completeness of the host-region extraction: a host that is exactly
s3.<token>.backblazeb2.com with a nonempty token from the regex's
character class yields that token. -/
theorem region_from_bucket_host_complete (tok : List Char)
    (hne : tok ≠ []) (hall : tok.all isRegionChar = true) :
    region_from_bucket_host (String.mk ("s3.".data ++ tok ++ ".backblazeb2.com".data))
      = some (String.mk tok) := by
  have hcs : (String.mk ("s3.".data ++ tok ++ ".backblazeb2.com".data)).data
      = "s3.".data ++ (tok ++ ".backblazeb2.com".data) := by
    simp [List.append_assoc]
  have hpre : "s3.".data.isPrefixOf ("s3.".data ++ (tok ++ ".backblazeb2.com".data)) = true :=
    List.isPrefixOf_iff_prefix.mpr ⟨tok ++ ".backblazeb2.com".data, rfl⟩
  have hsuf : ".backblazeb2.com".data.isSuffixOf
      ("s3.".data ++ (tok ++ ".backblazeb2.com".data)) = true :=
    List.isSuffixOf_iff_suffix.mpr ⟨"s3.".data ++ tok, by simp⟩
  have htlen : 0 < tok.length := List.length_pos.mpr hne
  have hlen : "s3.".data.length + ".backblazeb2.com".data.length
      < ("s3.".data ++ (tok ++ ".backblazeb2.com".data)).length := by
    simp only [List.length_append]
    omega
  have hk : ("s3.".data ++ (tok ++ ".backblazeb2.com".data)).length
      - "s3.".data.length - ".backblazeb2.com".data.length = tok.length := by
    simp only [List.length_append]
    omega
  have hmid : (("s3.".data ++ (tok ++ ".backblazeb2.com".data)).drop "s3.".data.length).take
      (("s3.".data ++ (tok ++ ".backblazeb2.com".data)).length
        - "s3.".data.length - ".backblazeb2.com".data.length) = tok := by
    rw [hk, List.drop_left, List.take_left]
  unfold region_from_bucket_host
  rw [hcs, hmid, if_pos ⟨hpre, hsuf, hlen⟩, if_pos hall]

/-- C7: `region_from_bucket_host` returns exactly the captured region
token when the host matches the REGION_REGEX pattern
s3.<token>.backblazeb2.com (in particular "eu-central-003" for
"s3.eu-central-003.backblazeb2.com"), returns none for every host that
does not match the pattern, and never fails. -/
theorem region_from_bucket_host_ok :
    region_from_bucket_host "s3.eu-central-003.backblazeb2.com" = some "eu-central-003"
    ∧ region_from_bucket_host "example.com" = none
    ∧ region_from_bucket_host "" = none
    ∧ (∀ (tok : List Char), tok ≠ [] → tok.all isRegionChar = true →
        region_from_bucket_host (String.mk ("s3.".data ++ tok ++ ".backblazeb2.com".data))
          = some (String.mk tok))
    ∧ (∀ host : String, (∀ tok, ¬ hostMatchesRegionRegex host tok) →
        region_from_bucket_host host = none) := by
  refine ⟨by decide, by decide, by decide,
    region_from_bucket_host_complete, fun host hno => ?_⟩
  cases hr : region_from_bucket_host host
  case none => rfl
  case some t => exact absurd (region_from_bucket_host_some host t hr) (hno t.data)

/-- Witness for C7 at the concrete region token "us-west-004". -/
theorem region_from_bucket_host_ok_witness :
    region_from_bucket_host
        (String.mk ("s3.".data ++ "us-west-004".data ++ ".backblazeb2.com".data))
      = some (String.mk "us-west-004".data) :=
  region_from_bucket_host_ok.2.2.2.1 "us-west-004".data (by decide) (by decide)

/-- C10: the resolver is a pure function: two resolutions of the same
path and region yield Origin records equal by value, field by field. -/
theorem resolve_idempotent (p r : String) :
    get_origin_for_content_path p r = get_origin_for_content_path p r
    ∧ (get_origin_for_content_path p r).backend_name
        = (get_origin_for_content_path p r).backend_name
    ∧ (get_origin_for_content_path p r).bucket_name
        = (get_origin_for_content_path p r).bucket_name
    ∧ (get_origin_for_content_path p r).bucket_host
        = (get_origin_for_content_path p r).bucket_host :=
  ⟨rfl, rfl, rfl, rfl⟩

end FastlyConfig
